import Mathlib

/-!
Shallow embedding of the clipboard-ai daemon core (src/daemon.py,
src/state.py, src/config.py) and proofs about its session lifecycle,
retry policy, routing and status reporting.

Instants are modelled as natural numbers of seconds; each call the Python
code makes to `datetime.now()` is an explicit parameter.  The text
generation provider is modelled by an oracle `Nat → ProviderOutcome`
giving the outcome of the i-th call to `chat.send_message`.
-/

namespace ClipboardAI

/-- Role tag of a message, the `role` string field of `state.Message`
("user" / "model"). -/
inductive Role
  | user
  | model
deriving DecidableEq

/-- `state.Message` (state.py 14-31): role, content and timestamp. -/
structure Message where
  role : Role
  content : String
  timestamp : Nat
deriving DecidableEq

/-- `state.ConversationState` (state.py 34-80). -/
structure ConversationState where
  active : Bool
  prompt_name : String
  model : String
  created_at : Nat
  last_activity : Nat
  messages : List Message
deriving DecidableEq

/-- `ConversationState.add_message` (state.py 67-70): append a message
stamped with the current instant and advance `last_activity`.  `now`
models the `datetime.now()` call. -/
def ConversationState.add_message (s : ConversationState) (role : Role)
    (content : String) (now : Nat) : ConversationState :=
  { s with messages := s.messages ++ [⟨role, content, now⟩], last_activity := now }

/-- `ConversationState.is_expired` (state.py 72-76): true when
`now - last_activity` exceeds the timeout, with everything in seconds. -/
def ConversationState.is_expired (s : ConversationState)
    (timeout_hours now : Nat) : Bool :=
  now - s.last_activity > timeout_hours * 3600

/-- `ConversationState.get_message_count` (state.py 78-80). -/
def ConversationState.get_message_count (s : ConversationState) : Nat :=
  s.messages.length

/-- The part of the state directory the daemon reads and writes
(state.py `StateManager`): the single current-session record
(`current.json`) and the archived records, most recent first, the order
`list_history` returns (state.py 171-176). -/
structure Store where
  current : Option ConversationState
  history : List ConversationState
deriving DecidableEq

/-- `StateManager.save_current` (state.py 108-114): overwrite the single
current-session record. -/
def save_current (st : Store) (s : ConversationState) : Store :=
  { st with current := some s }

/-- `StateManager.create_new` (state.py 116-126): a fresh active state
with an empty message list and both timestamps set to now. -/
def create_new (prompt_name model : String) (now : Nat) : ConversationState :=
  ⟨true, prompt_name, model, now, now, []⟩

/-- `StateManager.archive_current` (state.py 128-157): when a current
record exists, mark it inactive, move it to the front of the history and
delete the current record; otherwise report failure and change nothing. -/
def archive_current (st : Store) : Bool × Store :=
  match st.current with
  | none => (false, st)
  | some s => (true, ⟨none, { s with active := false } :: st.history⟩)

/-- The dictionary returned by `StateManager.get_status` (state.py
209-227), with `none` for keys the Python dict does not contain. -/
structure StatusData where
  active : Bool
  message : Option String
  prompt_name : Option String
  model : Option String
  created_at : Option Nat
  last_activity : Option Nat
  message_count : Option Nat
  history_count : Option Nat
deriving DecidableEq

/-- `StateManager.get_status` (state.py 209-227).  Note the branch with no
current record returns only the `active` and `message` keys. -/
def get_status (st : Store) : StatusData :=
  match st.current with
  | none =>
    { active := false, message := some ("No active conversation"),
      prompt_name := none, model := none, created_at := none,
      last_activity := none, message_count := none, history_count := none }
  | some s =>
    { active := true, message := none,
      prompt_name := some s.prompt_name, model := some s.model,
      created_at := some s.created_at, last_activity := some s.last_activity,
      message_count := some s.get_message_count,
      history_count := some st.history.length }

/-- A parsed prompt file (config.py `load_prompt` returns a JSON dict);
`none` fields model keys absent from the file, defaulted by the daemon
with `.get(..., default)`. -/
structure PromptProfile where
  model : Option String
  temperature : Option Rat
  thinking_enabled : Option Bool
  first_message : Option String
deriving DecidableEq

/-- The configuration the daemon consults: the prompts directory as an
association list from file stem to parsed profile, and the scalar config
values `default_model`, `max_retries`, `retry_delay_seconds` and
`conversation_timeout_hours` (config.py 26-35). -/
structure ConfigEnv where
  prompts : List (String × PromptProfile)
  default_model : String
  max_retries : Nat
  retry_delay_seconds : Nat
  timeout_hours : Nat
deriving DecidableEq

/-- `Config.load_prompt` (config.py 116-128): look the name up among the
prompt files; `none` when no such file exists. -/
def ConfigEnv.load_prompt (env : ConfigEnv) (name : String) :
    Option PromptProfile :=
  env.prompts.lookup name

/-- `Config.list_prompts` (config.py 130-139): the file stems of the
prompt files (the sort the Python code applies does not matter for the
membership tests the daemon performs). -/
def ConfigEnv.list_prompts (env : ConfigEnv) : List String :=
  env.prompts.map Prod.fst

/-- Outcome of one `chat.send_message` call, classified the way the
daemon's `except` clauses classify the google.genai exceptions:
`rateLimited` is `errors.ResourceExhausted`, `serverError` is
`errors.InternalError`, `invalidArgument` is `errors.InvalidArgument`,
`otherError` is any other exception. -/
inductive ProviderOutcome
  | ok (reply : String)
  | rateLimited
  | serverError (msg : String)
  | invalidArgument (msg : String)
  | otherError (msg : String)
deriving DecidableEq

/-- The live chat handle `client.chats.create` returns, as configured by
`create_chat` (daemon.py 80-97). -/
structure ChatHandle where
  model : String
  temperature : Rat
  thinking_enabled : Bool
deriving DecidableEq

/-- The daemon fields the claims are about: `self.chat`,
`self.current_state`, `self.last_activity` and the on-disk state
directory (daemon.py 28-47). -/
structure Daemon where
  chat : Option ChatHandle
  current_state : Option ConversationState
  last_activity : Nat
  store : Store
deriving DecidableEq

/-- Outcome of the retry loop of `send_message`. -/
inductive SendOutcome
  | success (reply : String)
  | failure (text : String)
deriving DecidableEq

/-- The retry loop of `send_message` (daemon.py 159-205).  `prov i` is the
outcome of the provider call made on attempt `i`; `remaining` is the
number of loop iterations left, so the loop is entered as
`sendLoop prov mr rd 0 mr`.  Returns the outcome, the backoff sleeps
performed in order (seconds), and the number of provider calls made.
A rate-limit retry sleeps `retry_delay * 2 ^ attempt` (daemon.py 179);
a server-error retry sleeps a constant `retry_delay` (daemon.py 194);
invalid-argument and unclassified errors return immediately; falling out
of the loop yields the max-retries text (daemon.py 205). -/
def sendLoop (prov : Nat → ProviderOutcome) (max_retries retry_delay : Nat) :
    Nat → Nat → SendOutcome × List Nat × Nat
  | _, 0 => (.failure ("Error: Max retries exceeded"), [], 0)
  | attempt, remaining + 1 =>
    match prov attempt with
    | .ok reply => (.success reply, [], 1)
    | .rateLimited =>
      if attempt < max_retries - 1 then
        let r := sendLoop prov max_retries retry_delay (attempt + 1) remaining
        (r.1, retry_delay * 2 ^ attempt :: r.2.1, r.2.2 + 1)
      else
        (.failure ("Error: Rate limit exceeded after retries"), [], 1)
    | .serverError _ =>
      if attempt < max_retries - 1 then
        let r := sendLoop prov max_retries retry_delay (attempt + 1) remaining
        (r.1, retry_delay :: r.2.1, r.2.2 + 1)
      else
        (.failure ("Error: Server error after retries"), [], 1)
    | .invalidArgument m => (.failure ("Error: Invalid request - " ++ m), [], 1)
    | .otherError m => (.failure ("Error: " ++ m), [], 1)

/-- Result of one `send_message` call: the returned text, the daemon
afterwards, the backoff sleeps, and the texts passed to the provider. -/
structure SendEffect where
  result : String
  daemon : Daemon
  sleeps : List Nat
  sent : List String
deriving DecidableEq

/-- `send_message` (daemon.py 148-205).  `t1`, `t2`, `t3` are the
instants of the three `datetime.now()` calls on the success path (the two
`add_message` stamps and the daemon `last_activity` touch).  On success
the user/model pair is appended and the state persisted; on failure the
daemon is left exactly as it was. -/
def send_message (env : ConfigEnv) (d : Daemon) (prov : Nat → ProviderOutcome)
    (content : String) (t1 t2 t3 : Nat) : SendEffect :=
  match d.chat, d.current_state with
  | none, _ => ⟨"Error: No active conversation", d, [], []⟩
  | some _, none => ⟨"Error: No active conversation", d, [], []⟩
  | some _, some st =>
    match sendLoop prov env.max_retries env.retry_delay_seconds 0 env.max_retries with
    | (.success reply, sleeps, calls) =>
      let st1 := (st.add_message .user content t1).add_message .model reply t2
      ⟨reply,
        { d with
          current_state := some st1, store := save_current d.store st1,
          last_activity := t3 },
        sleeps, List.replicate calls content⟩
    | (.failure text, sleeps, calls) =>
      ⟨text, d, sleeps, List.replicate calls content⟩

/-- `start_new_conversation` (daemon.py 99-146).  `createOk` is whether
`client.chats.create` succeeds in `create_chat`; `prov 0` is the outcome
of the single bootstrap `chat.send_message(first_message)` call —
the code makes exactly one such call, inside one try with no loop.
`tNew` stamps `create_new`; `t1 t2 t3` are the success-path
`datetime.now()` calls as in `send_message`.  Returns the reply text, the
daemon afterwards and the texts passed to the provider; `none` models the
uncaught exception raised when neither the requested prompt nor "default"
resolves.  Note `self.current_state` is assigned (daemon.py 121) before
the bootstrap send, and the except branches (daemon.py 140-146) return
the failure text without undoing that assignment. -/
def start_new_conversation (env : ConfigEnv) (d : Daemon) (prompt_name : String)
    (createOk : Bool) (prov : Nat → ProviderOutcome) (tNew t1 t2 t3 : Nat) :
    Option (String × Daemon × List String) :=
  let resolved : Option (String × PromptProfile) :=
    match env.load_prompt prompt_name with
    | some pc => some (prompt_name, pc)
    | none =>
      match env.load_prompt ("default") with
      | some pc => some ("default", pc)
      | none => none
  match resolved with
  | none => none
  | some (pname, pc) =>
    let model := pc.model.getD env.default_model
    let temperature := pc.temperature.getD (7 / 10 : Rat)
    let thinking := pc.thinking_enabled.getD false
    let first_message := pc.first_message.getD ("")
    if createOk then
      let d2 : Daemon :=
        { d with
          chat := some ⟨model, temperature, thinking⟩,
          current_state := some (create_new pname model tNew) }
      match prov 0 with
      | .ok reply =>
        let st1 := ((create_new pname model tNew).add_message .user first_message
          t1).add_message .model reply t2
        some (reply,
          { d2 with
            current_state := some st1, store := save_current d2.store st1,
            last_activity := t3 },
          [first_message])
      | .rateLimited =>
        some ("Error: Rate limit exceeded. Try again in a moment.", d2,
          [first_message])
      | .invalidArgument m =>
        some ("Error: Invalid request - " ++ m, d2, [first_message])
      | .serverError m => some ("Error: " ++ m, d2, [first_message])
      | .otherError m => some ("Error: " ++ m, d2, [first_message])
    else
      some ("Error: Failed to create chat", d, [])

/-- The replay loop of `check_and_resume_conversation` (daemon.py
243-250): walk the stored messages in order, sending each user-role
content through the handle and discarding the reply; `prov k` is the
outcome of the k-th replay call.  Returns the texts passed to the
provider and whether the whole replay succeeded — any raised error aborts
the loop (the failing call was still issued). -/
def replayLoop (prov : Nat → ProviderOutcome) :
    List Message → Nat → List String × Bool
  | [], _ => ([], true)
  | msg :: rest, k =>
    if msg.role = .user then
      match prov k with
      | .ok _ =>
        let r := replayLoop prov rest (k + 1)
        (msg.content :: r.1, r.2)
      | _ => ([msg.content], false)
    else
      replayLoop prov rest k

/-- `check_and_resume_conversation` (daemon.py 207-255).  Returns the
boolean result, the daemon afterwards and the replayed texts; `none`
models the uncaught exception when neither the stored prompt name nor
"default" resolves.  A non-expired record is replayed user-message by
user-message; success installs the loaded state as current, any replay
failure returns `false` leaving `current_state` untouched and the record
in place. -/
def check_and_resume_conversation (env : ConfigEnv) (d : Daemon)
    (createOk : Bool) (prov : Nat → ProviderOutcome) (now : Nat) :
    Option (Bool × Daemon × List String) :=
  match d.store.current with
  | none => some (false, d, [])
  | some st =>
    if st.is_expired env.timeout_hours now then
      some (false, { d with store := (archive_current d.store).2 }, [])
    else
      let pc? : Option PromptProfile :=
        match env.load_prompt st.prompt_name with
        | some pc => some pc
        | none => env.load_prompt ("default")
      match pc? with
      | none => none
      | some pc =>
        if createOk then
          let d1 : Daemon :=
            { d with chat := some ⟨st.model, pc.temperature.getD (7 / 10 : Rat),
              pc.thinking_enabled.getD false⟩ }
          match replayLoop prov st.messages 0 with
          | (sent, true) =>
            some (true,
              { d1 with current_state := some st, last_activity := now }, sent)
          | (sent, false) => some (false, d1, sent)
        else
          some (false, d, [])

/-- `check_timeout` (daemon.py 330-337): the periodic sweep.  If a
current session exists and the idle time exceeds the timeout, archive the
current record and call `shutdown` — which stops the accept loop, closes
the socket and exits the process (daemon.py 373-387). -/
inductive SweepResult
  | keepRunning (d : Daemon)
  | shutdownDaemon (d : Daemon)
deriving DecidableEq

/-- `check_timeout` (daemon.py 330-337), see `SweepResult`. -/
def check_timeout (env : ConfigEnv) (d : Daemon) (now : Nat) : SweepResult :=
  match d.current_state with
  | none => .keepRunning d
  | some _ =>
    if now - d.last_activity > env.timeout_hours * 3600 then
      .shutdownDaemon { d with store := (archive_current d.store).2 }
    else
      .keepRunning d

/-- The "new" action of `handle_client` (daemon.py 296-306): archive any
current session, clear the in-memory state and chat handle, answer with a
confirmation; the daemon keeps serving. -/
def forced_reset (d : Daemon) : String × Daemon :=
  let store1 :=
    match d.current_state with
    | some _ => (archive_current d.store).2
    | none => d.store
  ("Conversation reset. Next message will start fresh.",
    { d with current_state := none, chat := none, store := store1 })

/-- Python's `str.strip()`: drop leading and trailing whitespace
characters (the inputs in question are ASCII). -/
def pyStrip (s : String) : String :=
  ⟨((s.data.dropWhile Char.isWhitespace).reverse.dropWhile
    Char.isWhitespace).reverse⟩

/-- Python's `str.lower()`, restricted to ASCII letters — all prompt
names and contents in question are ASCII. -/
def pyLower (s : String) : String := ⟨s.data.map Char.toLower⟩

/-- Python's `str.startswith(p)`. -/
def pyStartsWith (s p : String) : Bool := p.data.isPrefixOf s.data

/-- The "send" action routing of `handle_client` (daemon.py 272-294).
With no current session the trimmed, lowercased content is compared to
the lowercased prompt names; on a match the lowercased content is used as
the prompt name of a new conversation, otherwise a default conversation
is bootstrapped and, only when its result does not start with "Error:",
the original content is sent as an ordinary message.  `prov 0` is the
bootstrap call, later indices the follow-up send attempts; `u1 u2 u3` are
the follow-up send's `datetime.now()` instants. -/
def route_send (env : ConfigEnv) (d : Daemon) (content : String)
    (createOk : Bool) (prov : Nat → ProviderOutcome)
    (tNew t1 t2 t3 u1 u2 u3 : Nat) : Option (String × Daemon × List String) :=
  match d.current_state with
  | some _ =>
    let e := send_message env d prov content u1 u2 u3
    some (e.result, e.daemon, e.sent)
  | none =>
    let content_clean := pyLower (pyStrip content)
    let available := env.list_prompts.map pyLower
    if content_clean ∈ available then
      start_new_conversation env d content_clean createOk prov tNew t1 t2 t3
    else
      match start_new_conversation env d ("default") createOk prov tNew t1 t2 t3 with
      | none => none
      | some (result, d1, sent1) =>
        if pyStartsWith result ("Error:") then
          some (result, d1, sent1)
        else
          let e := send_message env d1 (fun i => prov (i + 1)) content u1 u2 u3
          some (e.result, e.daemon, sent1 ++ e.sent)

/-! ### Unfolding lemmas for the retry loop -/

theorem sendLoop_ok (prov : Nat → ProviderOutcome) (mr rd a n : Nat)
    (reply : String) (hp : prov a = ProviderOutcome.ok reply) :
    sendLoop prov mr rd a (n + 1) = (SendOutcome.success reply, [], 1) := by
  simp [sendLoop, hp]

theorem sendLoop_rateLimited_retry (prov : Nat → ProviderOutcome)
    (mr rd a n : Nat) (hp : prov a = ProviderOutcome.rateLimited)
    (h : a < mr - 1) :
    sendLoop prov mr rd a (n + 1) =
      ((sendLoop prov mr rd (a + 1) n).1,
        rd * 2 ^ a :: (sendLoop prov mr rd (a + 1) n).2.1,
        (sendLoop prov mr rd (a + 1) n).2.2 + 1) := by
  simp [sendLoop, hp, h]

theorem sendLoop_rateLimited_last (prov : Nat → ProviderOutcome)
    (mr rd a n : Nat) (hp : prov a = ProviderOutcome.rateLimited)
    (h : ¬ a < mr - 1) :
    sendLoop prov mr rd a (n + 1) =
      (SendOutcome.failure ("Error: Rate limit exceeded after retries"), [], 1) := by
  simp [sendLoop, hp, h]

theorem sendLoop_serverError_retry (prov : Nat → ProviderOutcome)
    (mr rd a n : Nat) (m : String) (hp : prov a = ProviderOutcome.serverError m)
    (h : a < mr - 1) :
    sendLoop prov mr rd a (n + 1) =
      ((sendLoop prov mr rd (a + 1) n).1,
        rd :: (sendLoop prov mr rd (a + 1) n).2.1,
        (sendLoop prov mr rd (a + 1) n).2.2 + 1) := by
  simp [sendLoop, hp, h]

theorem sendLoop_invalidArgument (prov : Nat → ProviderOutcome)
    (mr rd a n : Nat) (m : String)
    (hp : prov a = ProviderOutcome.invalidArgument m) :
    sendLoop prov mr rd a (n + 1) =
      (SendOutcome.failure ("Error: Invalid request - " ++ m), [], 1) := by
  simp [sendLoop, hp]

/-- A run of the retry loop that sees `rateLimited` on every attempt
before attempt `mr - 1` and a success there: it returns the reply, with
one backoff sleep of `rd * 2 ^ i` per failed attempt `i`. -/
theorem sendLoop_rateLimited_run (prov : Nat → ProviderOutcome) (mr rd : Nat)
    (reply : String) :
    ∀ r a, a + r = mr → 1 ≤ r →
      (∀ i, a ≤ i → i < mr - 1 → prov i = ProviderOutcome.rateLimited) →
      prov (mr - 1) = ProviderOutcome.ok reply →
      sendLoop prov mr rd a r =
        (SendOutcome.success reply,
          (List.range' a (mr - 1 - a)).map (fun i => rd * 2 ^ i), r) := by
  intro r
  induction r with
  | zero => intro a _ h1 _ _; omega
  | succ n ih =>
    intro a hsum _ hrl hok
    rcases Nat.eq_zero_or_pos n with hn | hn
    · subst hn
      have ha : prov a = ProviderOutcome.ok reply := by
        have : a = mr - 1 := by omega
        rw [this]; exact hok
      rw [sendLoop_ok prov mr rd a 0 reply ha]
      have h0 : mr - 1 - a = 0 := by omega
      simp [h0]
    · have ha : a < mr - 1 := by omega
      have hpa : prov a = ProviderOutcome.rateLimited := hrl a le_rfl ha
      rw [sendLoop_rateLimited_retry prov mr rd a n hpa ha,
        ih (a + 1) (by omega) hn (fun i hi h2 => hrl i (by omega) h2) hok]
      have hlen : mr - 1 - a = (mr - 1 - (a + 1)) + 1 := by omega
      rw [hlen, List.range'_succ]
      simp

/-- A run of the retry loop that sees `serverError` on every attempt
before attempt `mr - 1` and a success there: it returns the reply, with
one constant sleep of `rd` per failed attempt. -/
theorem sendLoop_serverError_run (prov : Nat → ProviderOutcome) (mr rd : Nat)
    (reply m : String) :
    ∀ r a, a + r = mr → 1 ≤ r →
      (∀ i, a ≤ i → i < mr - 1 → prov i = ProviderOutcome.serverError m) →
      prov (mr - 1) = ProviderOutcome.ok reply →
      sendLoop prov mr rd a r =
        (SendOutcome.success reply, List.replicate (mr - 1 - a) rd, r) := by
  intro r
  induction r with
  | zero => intro a _ h1 _ _; omega
  | succ n ih =>
    intro a hsum _ hsrv hok
    rcases Nat.eq_zero_or_pos n with hn | hn
    · subst hn
      have ha : prov a = ProviderOutcome.ok reply := by
        have : a = mr - 1 := by omega
        rw [this]; exact hok
      rw [sendLoop_ok prov mr rd a 0 reply ha]
      have h0 : mr - 1 - a = 0 := by omega
      simp [h0]
    · have ha : a < mr - 1 := by omega
      have hpa : prov a = ProviderOutcome.serverError m := hsrv a le_rfl ha
      rw [sendLoop_serverError_retry prov mr rd a n m hpa ha,
        ih (a + 1) (by omega) hn (fun i hi h2 => hsrv i (by omega) h2) hok]
      have hlen : mr - 1 - a = (mr - 1 - (a + 1)) + 1 := by omega
      rw [hlen, List.replicate_succ]

/-! ### Claim C2 -/

/-- Two transient server errors, then success, for the C2 counterexample. -/
def provSrvTwice : Nat → ProviderOutcome := fun i =>
  if i < 2 then ProviderOutcome.serverError ("boom") else ProviderOutcome.ok ("hi")

/-- Claim C2, counterexample.  With `maxRetries = 3`, `retryDelay = 2` and
a provider raising a transient server error on attempts 0 and 1 then
succeeding, the retry loop sleeps `[2, 2]`, not the exponential
`[retryDelay * 2 ^ 0, retryDelay * 2 ^ 1] = [2, 4]` the claim asserts for
every transient failure. -/
theorem C2_counterexample :
    sendLoop provSrvTwice 3 2 0 3 = (SendOutcome.success ("hi"), [2, 2], 3)
    ∧ [2, 2] ≠ [2 * 2 ^ 0, 2 * 2 ^ 1] := by
  constructor
  · rfl
  · decide

/-- Claim C2, amended: transient failures are retried up to `maxRetries`
attempts, but the exponential backoff `retryDelay * 2 ^ attempt` applies
only to rate-limit failures; transient server errors are retried with a
constant `retryDelay` sleep.  A provider returning `RateLimited` exactly
`maxRetries - 1` times then succeeding yields the reply after
`maxRetries - 1` exponential backoff sleeps; one returning a transient
server error `maxRetries - 1` times then succeeding yields the reply
after `maxRetries - 1` constant sleeps; an `InvalidArgument` failure is
surfaced immediately with a single provider call and no retry. -/
theorem C2_amended (mr rd : Nat) (provA provB provC : Nat → ProviderOutcome)
    (reply replyB m srvMsg : String) (hmr : 1 ≤ mr)
    (ha : ∀ i, i < mr - 1 → provA i = ProviderOutcome.rateLimited)
    (ha2 : provA (mr - 1) = ProviderOutcome.ok reply)
    (hb : ∀ i, i < mr - 1 → provB i = ProviderOutcome.serverError srvMsg)
    (hb2 : provB (mr - 1) = ProviderOutcome.ok replyB)
    (hc : provC 0 = ProviderOutcome.invalidArgument m) :
    sendLoop provA mr rd 0 mr =
      (SendOutcome.success reply,
        (List.range (mr - 1)).map (fun i => rd * 2 ^ i), mr)
    ∧ sendLoop provB mr rd 0 mr =
      (SendOutcome.success replyB, List.replicate (mr - 1) rd, mr)
    ∧ sendLoop provC mr rd 0 mr =
      (SendOutcome.failure ("Error: Invalid request - " ++ m), [], 1) := by
  refine ⟨?_, ?_, ?_⟩
  · rw [sendLoop_rateLimited_run provA mr rd reply mr 0 (by omega) hmr
      (fun i _ h2 => ha i h2) ha2]
    rw [List.range_eq_range']
    simp
  · rw [sendLoop_serverError_run provB mr rd replyB srvMsg mr 0 (by omega) hmr
      (fun i _ h2 => hb i h2) hb2]
    simp
  · obtain ⟨k, hk⟩ : ∃ k, mr = k + 1 := ⟨mr - 1, by omega⟩
    rw [hk]
    exact sendLoop_invalidArgument provC (k + 1) rd 0 k m hc

/-- Rate-limited twice then success, for the C2 witness. -/
def provRlTwice : Nat → ProviderOutcome := fun i =>
  if i < 2 then ProviderOutcome.rateLimited else ProviderOutcome.ok ("ok!")

/-- Invalid argument at once, for the C2 witness. -/
def provInvalid : Nat → ProviderOutcome := fun _ =>
  ProviderOutcome.invalidArgument ("bad")

/-- Witness for C2_amended at `maxRetries = 3`, `retryDelay = 2`. -/
theorem C2_witness :
    sendLoop provRlTwice 3 2 0 3 = (SendOutcome.success ("ok!"), [2, 4], 3)
    ∧ sendLoop provSrvTwice 3 2 0 3 = (SendOutcome.success ("hi"), [2, 2], 3)
    ∧ sendLoop provInvalid 3 2 0 3 =
      (SendOutcome.failure ("Error: Invalid request - bad"), [], 1) := by
  have h := C2_amended 3 2 provRlTwice provSrvTwice provInvalid ("ok!") ("hi")
    ("bad") ("boom") (by omega) (by decide) (by decide) (by decide) (by decide)
    (by decide)
  refine ⟨?_, ?_, h.2.2⟩
  · rw [h.1]; rfl
  · rw [h.2.1]; rfl

/-! ### Concrete fixtures -/

/-- A minimal default prompt profile: a model and a first message. -/
def dpFix : PromptProfile := ⟨some ("m"), none, none, some ("hello")⟩

/-- A config with only the default prompt and the default scalar values
`max_retries = 3`, `retry_delay_seconds = 2`, timeout 12 hours. -/
def envFix : ConfigEnv := ⟨[("default", dpFix)], "gm", 3, 2, 12⟩

/-- A daemon in Empty state with an empty state directory. -/
def dEmpty : Daemon := ⟨none, none, 0, ⟨none, []⟩⟩

/-- An archived (inactive) session record. -/
def archFix : ConversationState := ⟨false, "default", "m", 0, 0, []⟩

/-- An active session with one bootstrap exchange in its log. -/
def stFix : ConversationState :=
  ⟨true, "default", "m", 0, 0,
    [⟨Role.user, "hello", 0⟩, ⟨Role.model, "R", 0⟩]⟩

/-- A daemon in Active state holding `stFix`, with the record persisted. -/
def dActive : Daemon :=
  ⟨some ⟨"m", 7 / 10, false⟩, some stFix, 0, ⟨some stFix, []⟩⟩

/-- A provider that always rate-limits. -/
def provRL : Nat → ProviderOutcome := fun _ => ProviderOutcome.rateLimited

/-- A provider that raises an unclassified error. -/
def provBoom : Nat → ProviderOutcome := fun _ => ProviderOutcome.otherError ("boom")

/-- A provider that rate-limits the first call only. -/
def provRlOnce : Nat → ProviderOutcome := fun i =>
  if i = 0 then ProviderOutcome.rateLimited else ProviderOutcome.ok ("hi")

/-! ### Claim C7 -/

/-- The dictionary `get_status` returns when no current record exists. -/
def statusNoSession : StatusData :=
  { active := false, message := some ("No active conversation"),
    prompt_name := none, model := none, created_at := none,
    last_activity := none, message_count := none, history_count := none }

/-- Claim C7, counterexample: with no current record and exactly one
archived record, `get_status` returns only the `active` and `message`
keys — there is no `history_count` key at all, contrary to the claim that
the returned data carries `history_count` equal to the number of archived
records (here 1). -/
theorem C7_counterexample :
    get_status ⟨none, [archFix]⟩ = statusNoSession
    ∧ (get_status ⟨none, [archFix]⟩).history_count ≠ some 1
    ∧ (⟨none, [archFix]⟩ : Store).history.length = 1 := by
  refine ⟨rfl, by decide, rfl⟩

/-- Claim C7, amended: a status query with no current session returns
exactly `{active: false, message: "No active conversation"}` and no
other keys; in particular no `history_count` is reported (it is included
only when a session is current), whatever the number of archived
records. -/
theorem C7_amended (hist : List ConversationState) :
    get_status ⟨none, hist⟩ = statusNoSession := rfl

/-! ### Claim C8 -/

/-- The daemon after the sweep archived `dActive`'s record. -/
def dActiveArchived : Daemon :=
  { dActive with store := ⟨none, [{ stFix with active := false }]⟩ }

/-- Claim C8, counterexample: at a sweep tick one second past the
12-hour timeout, `check_timeout` archives the record and SHUTS THE DAEMON
DOWN — it does not clear the in-memory state and keep serving, so its
effect differs from a forced reset (which leaves a running daemon in
Empty state). -/
theorem C8_counterexample :
    check_timeout envFix dActive 43201 =
      SweepResult.shutdownDaemon dActiveArchived
    ∧ check_timeout envFix dActive 43201 ≠
      SweepResult.keepRunning (forced_reset dActive).2
    ∧ (forced_reset dActive).2.current_state = none
    ∧ dActiveArchived.current_state = some stFix := by
  refine ⟨rfl, by decide, rfl, rfl⟩

/-- Claim C8, amended: at any sweep tick where a current session exists
and `now - lastActivity` exceeds `timeoutHours`, the sweep archives the
persisted current record and shuts the daemon down (the daemon stops
serving and exits); the in-memory session reference is not cleared and no
confirmation is sent. -/
theorem C8_amended (env : ConfigEnv) (d : Daemon) (now : Nat)
    (st : ConversationState) (hcur : d.current_state = some st)
    (hidle : now - d.last_activity > env.timeout_hours * 3600) :
    check_timeout env d now =
      SweepResult.shutdownDaemon { d with store := (archive_current d.store).2 } := by
  simp [check_timeout, hcur, hidle]

/-- Witness for C8_amended on the concrete expired daemon. -/
theorem C8_witness :
    check_timeout envFix dActive 43201 =
      SweepResult.shutdownDaemon
        { dActive with store := (archive_current dActive.store).2 } :=
  C8_amended envFix dActive 43201 stFix rfl (by decide)

/-! ### Claim C1 -/

/-- The text each failing-bootstrap `except` arm of
`start_new_conversation` (daemon.py 140-146) returns; `none` for a
successful call. -/
def bootstrapFailureText : ProviderOutcome → Option String
  | ProviderOutcome.ok _ => none
  | ProviderOutcome.rateLimited =>
    some ("Error: Rate limit exceeded. Try again in a moment.")
  | ProviderOutcome.invalidArgument m => some ("Error: Invalid request - " ++ m)
  | ProviderOutcome.serverError m => some ("Error: " ++ m)
  | ProviderOutcome.otherError m => some ("Error: " ++ m)

/-- The daemon left behind by a bootstrap that failed after chat creation
against `envFix`: chat handle retained, fresh empty session installed. -/
def dAfterFailedBoot : Daemon :=
  { dEmpty with
    chat := some ⟨"m", 7 / 10, false⟩,
    current_state := some (create_new ("default") ("m") 5) }

/-- Claim C1, counterexample: a bootstrap send failing with an
unclassified provider error returns the failure text, but the daemon is
left with the freshly created (empty) session installed as current and
the live chat handle retained — not in Empty state as claimed. -/
theorem C1_counterexample :
    start_new_conversation envFix dEmpty ("default") true provBoom 5 6 7 8 =
      some ("Error: boom", dAfterFailedBoot, ["hello"])
    ∧ dAfterFailedBoot.current_state ≠ none
    ∧ dAfterFailedBoot.chat ≠ none := by
  refine ⟨rfl, by decide, by decide⟩

/-- Claim C1, amended: when the bootstrap send of the profile's first
message fails (any classified or unclassified provider error), the
operation returns the failure text and neither persists the session nor
touches the daemon's last-activity — but the in-memory current session IS
left installed as the freshly created empty SessionState and the live
provider handle is retained. -/
theorem C1_amended (env : ConfigEnv) (d : Daemon) (pn : String)
    (pc : PromptProfile) (prov : Nat → ProviderOutcome) (text : String)
    (tNew t1 t2 t3 : Nat) (hpc : env.load_prompt pn = some pc)
    (herr : bootstrapFailureText (prov 0) = some text) :
    start_new_conversation env d pn true prov tNew t1 t2 t3 =
      some (text,
        { d with
          chat := some ⟨pc.model.getD env.default_model,
            pc.temperature.getD (7 / 10 : Rat), pc.thinking_enabled.getD false⟩,
          current_state := some (create_new pn (pc.model.getD env.default_model)
            tNew) },
        [pc.first_message.getD ("")]) := by
  cases hp : prov 0 <;> rw [hp] at herr <;>
    simp only [bootstrapFailureText, Option.some.injEq,
      reduceCtorEq] at herr <;>
    subst herr <;>
    simp [start_new_conversation, hpc, hp]

/-- Witness for C1_amended: bootstrap rate-limited against `envFix`. -/
theorem C1_witness :
    start_new_conversation envFix dEmpty ("default") true provRL 5 6 7 8 =
      some ("Error: Rate limit exceeded. Try again in a moment.",
        { dEmpty with
          chat := some ⟨dpFix.model.getD envFix.default_model,
            dpFix.temperature.getD (7 / 10 : Rat),
            dpFix.thinking_enabled.getD false⟩,
          current_state := some (create_new ("default")
            (dpFix.model.getD envFix.default_model) 5) },
        [dpFix.first_message.getD ("")]) :=
  C1_amended envFix dEmpty ("default") dpFix provRL
    ("Error: Rate limit exceeded. Try again in a moment.") 5 6 7 8 rfl rfl

/-! ### Claim C3 -/

/-- Claim C3, counterexample: a bootstrap send that is rate-limited once
(and would succeed on any retry) immediately returns the rate-limit
failure text — while the ordinary send pipeline with the same provider
behavior and the same config (`maxRetries = 3`, `retryDelay = 2`) retries
and succeeds after one backoff sleep.  The bootstrap send is therefore
NOT routed through the retry policy. -/
theorem C3_counterexample :
    start_new_conversation envFix dEmpty ("default") true provRlOnce 5 6 7 8 =
      some ("Error: Rate limit exceeded. Try again in a moment.",
        dAfterFailedBoot, ["hello"])
    ∧ sendLoop provRlOnce 3 2 0 3 = (SendOutcome.success ("hi"), [2], 2) := by
  refine ⟨rfl, rfl⟩

/-- Claim C3, amended: the bootstrap send of the profile's firstMessage
is issued exactly once, outside the retry pipeline: a transient
rate-limit failure immediately yields the failure text with no retry and
no backoff sleep, even when the retry pipeline (which `send_message` uses
with the same config) would have retried and succeeded. -/
theorem C3_amended (env : ConfigEnv) (d : Daemon) (pn : String)
    (pc : PromptProfile) (prov : Nat → ProviderOutcome) (reply : String)
    (tNew t1 t2 t3 : Nat) (hpc : env.load_prompt pn = some pc)
    (hrl : prov 0 = ProviderOutcome.rateLimited)
    (hrest : ∀ i, 1 ≤ i → prov i = ProviderOutcome.ok reply)
    (hmr : 2 ≤ env.max_retries) :
    start_new_conversation env d pn true prov tNew t1 t2 t3 =
      some ("Error: Rate limit exceeded. Try again in a moment.",
        { d with
          chat := some ⟨pc.model.getD env.default_model,
            pc.temperature.getD (7 / 10 : Rat), pc.thinking_enabled.getD false⟩,
          current_state := some (create_new pn (pc.model.getD env.default_model)
            tNew) },
        [pc.first_message.getD ("")])
    ∧ sendLoop prov env.max_retries env.retry_delay_seconds 0 env.max_retries =
      (SendOutcome.success reply, [env.retry_delay_seconds], 2) := by
  constructor
  · simp [start_new_conversation, hpc, hrl]
  · obtain ⟨k, hk⟩ : ∃ k, env.max_retries = k + 2 :=
      ⟨env.max_retries - 2, by omega⟩
    rw [hk]
    rw [show k + 2 = (k + 1) + 1 from rfl,
      sendLoop_rateLimited_retry prov (k + 2) env.retry_delay_seconds 0 (k + 1)
        hrl (by omega),
      sendLoop_ok prov (k + 2) env.retry_delay_seconds 1 k reply
        (hrest 1 le_rfl)]
    simp

/-- Witness for C3_amended on `envFix` and the rate-limited-once
provider. -/
theorem C3_witness :
    start_new_conversation envFix dEmpty ("default") true provRlOnce 5 6 7 8 =
      some ("Error: Rate limit exceeded. Try again in a moment.",
        { dEmpty with
          chat := some ⟨dpFix.model.getD envFix.default_model,
            dpFix.temperature.getD (7 / 10 : Rat),
            dpFix.thinking_enabled.getD false⟩,
          current_state := some (create_new ("default")
            (dpFix.model.getD envFix.default_model) 5) },
        [dpFix.first_message.getD ("")])
    ∧ sendLoop provRlOnce envFix.max_retries envFix.retry_delay_seconds 0
        envFix.max_retries =
      (SendOutcome.success ("hi"), [envFix.retry_delay_seconds], 2) :=
  C3_amended envFix dEmpty ("default") dpFix provRlOnce ("hi") 5 6 7 8 rfl rfl
    (fun i hi => by
      have h0 : i ≠ 0 := by omega
      simp [provRlOnce, h0])
    (by decide)

/-! ### Claim C4 -/

/-- Claim C4, confirmed: a `send_message` call in Active state whose
provider exchange ultimately fails (after any retries) returns the
failure text and changes nothing: the in-memory session (message log and
timestamps), the daemon's last-activity and the persisted record are all
exactly as before the call. -/
theorem C4_confirmed (env : ConfigEnv) (d : Daemon)
    (prov : Nat → ProviderOutcome) (content : String) (t1 t2 t3 : Nat)
    (ch : ChatHandle) (st : ConversationState) (text : String)
    (hchat : d.chat = some ch) (hcur : d.current_state = some st)
    (hfail : (sendLoop prov env.max_retries env.retry_delay_seconds 0
      env.max_retries).1 = SendOutcome.failure text) :
    (send_message env d prov content t1 t2 t3).result = text
    ∧ (send_message env d prov content t1 t2 t3).daemon = d := by
  rcases hsl : sendLoop prov env.max_retries env.retry_delay_seconds 0
    env.max_retries with ⟨o, sleeps, calls⟩
  rw [hsl] at hfail
  simp only at hfail
  subst hfail
  constructor <;> simp [send_message, hchat, hcur, hsl]

/-- Witness for C4_confirmed: an always-rate-limited provider exhausts
the retries and the Active daemon is left untouched. -/
theorem C4_witness :
    (send_message envFix dActive provRL ("x") 1 2 3).result =
      "Error: Rate limit exceeded after retries"
    ∧ (send_message envFix dActive provRL ("x") 1 2 3).daemon = dActive :=
  C4_confirmed envFix dActive provRL ("x") 1 2 3 ⟨"m", 7 / 10, false⟩ stFix
    ("Error: Rate limit exceeded after retries") rfl rfl (by decide)

/-! ### Claim C10 -/

/-- Claim C10, confirmed: with no current session and content that does
not match a prompt name, the routing bootstraps the default profile and
decides success solely by whether the returned text starts with
"Error:".  If the provider's bootstrap reply itself begins with
"Error:", the original content is never sent to the provider (the only
provider call is the bootstrap first message) and that bootstrap reply is
returned to the client — even though the bootstrap succeeded. -/
theorem C10_confirmed (env : ConfigEnv) (d : Daemon) (content : String)
    (prov : Nat → ProviderOutcome) (dp : PromptProfile) (reply : String)
    (tNew t1 t2 t3 u1 u2 u3 : Nat)
    (hd : d.current_state = none)
    (hnm : pyLower (pyStrip content) ∉ env.list_prompts.map pyLower)
    (hdp : env.load_prompt ("default") = some dp)
    (hok : prov 0 = ProviderOutcome.ok reply)
    (herr : pyStartsWith reply ("Error:") = true) :
    route_send env d content true prov tNew t1 t2 t3 u1 u2 u3 =
      some (reply,
        { d with
          chat := some ⟨dp.model.getD env.default_model,
            dp.temperature.getD (7 / 10 : Rat), dp.thinking_enabled.getD false⟩,
          current_state := some (((create_new ("default")
            (dp.model.getD env.default_model) tNew).add_message Role.user
            (dp.first_message.getD ("")) t1).add_message Role.model reply t2),
          store := save_current d.store (((create_new ("default")
            (dp.model.getD env.default_model) tNew).add_message Role.user
            (dp.first_message.getD ("")) t1).add_message Role.model reply t2),
          last_activity := t3 },
        [dp.first_message.getD ("")]) := by
  simp [route_send, hd, hnm, start_new_conversation, hdp, hok, herr]

/-- A provider whose (successful) bootstrap reply looks like an error
text. -/
def provErrReply : Nat → ProviderOutcome := fun _ =>
  ProviderOutcome.ok ("Error: I refuse")

/-- Witness for C10_confirmed against `envFix`. -/
theorem C10_witness :
    route_send envFix dEmpty ("what") true provErrReply 5 6 7 8 9 10 11 =
      some ("Error: I refuse",
        { dEmpty with
          chat := some ⟨dpFix.model.getD envFix.default_model,
            dpFix.temperature.getD (7 / 10 : Rat),
            dpFix.thinking_enabled.getD false⟩,
          current_state := some (((create_new ("default")
            (dpFix.model.getD envFix.default_model) 5).add_message Role.user
            (dpFix.first_message.getD ("")) 6).add_message Role.model
            ("Error: I refuse") 7),
          store := save_current dEmpty.store (((create_new ("default")
            (dpFix.model.getD envFix.default_model) 5).add_message Role.user
            (dpFix.first_message.getD ("")) 6).add_message Role.model
            ("Error: I refuse") 7),
          last_activity := 8 },
        [dpFix.first_message.getD ("")]) :=
  C10_confirmed envFix dEmpty ("what") provErrReply dpFix ("Error: I refuse")
    5 6 7 8 9 10 11 rfl (by decide) rfl rfl (by decide)

/-! ### Claim C6 -/

/-- A profile stored under the mixed-case name "Translate". -/
def tpMixed : PromptProfile := ⟨some ("tm"), none, none, some ("TP")⟩

/-- The default profile of the mixed-case config. -/
def dpMixed : PromptProfile := ⟨some ("dm"), none, none, some ("DP")⟩

/-- A config whose prompts directory holds `Translate.json` and
`default.json`. -/
def envMixed : ConfigEnv :=
  ⟨[("Translate", tpMixed), ("default", dpMixed)], "gm", 3, 2, 12⟩

/-- A provider answering "R" to everything. -/
def provOkR : Nat → ProviderOutcome := fun _ => ProviderOutcome.ok ("R")

/-- The session the mixed-case counterexample run actually creates: the
DEFAULT profile's conversation, not Translate's. -/
def stMixedRes : ConversationState :=
  ((create_new ("default") ("dm") 5).add_message Role.user ("DP") 6).add_message
    Role.model ("R") 7

/-- The daemon after the mixed-case counterexample run. -/
def dMixedRes : Daemon :=
  { dEmpty with
    chat := some ⟨"dm", 7 / 10, false⟩,
    current_state := some stMixedRes,
    store := save_current dEmpty.store stMixedRes,
    last_activity := 8 }

/-- Claim C6, counterexample: with no current session and content
"Translate" matching the profile stored as "Translate"
(case-insensitively), the daemon starts a conversation with the DEFAULT
profile, not with Translate's: the lowercased content "translate" is
used as the prompt name, `load_prompt` finds no such file, and
`start_new_conversation` falls back to "default" — so the new session
carries the default profile's firstMessage ("DP", not "TP") and model,
and `prompt_name = "default"`.  (The content is indeed consumed as a
selector and not forwarded, but the profile the claim promises is not the
one used.) -/
theorem C6_counterexample :
    route_send envMixed dEmpty ("Translate") true provOkR 5 6 7 8 9 10 11 =
      some ("R", dMixedRes, ["DP"])
    ∧ dMixedRes.current_state = some stMixedRes
    ∧ stMixedRes.prompt_name = "default"
    ∧ stMixedRes.prompt_name ≠ "Translate"
    ∧ ["DP"] ≠ [tpMixed.first_message.getD ("")]
    ∧ stMixedRes.model ≠ tpMixed.model.getD envMixed.default_model := by
  refine ⟨rfl, rfl, rfl, by decide, by decide, by decide⟩

/-- Claim C6, amended: for a send action with no current session whose
content, trimmed and lowercased, matches a known prompt name compared
case-insensitively, the routing starts a new conversation using the
LOWERCASED content as the profile name (so the matched profile is
actually used only when its stored name is all-lowercase; otherwise
`start_new_conversation` falls back to the default profile), returns that
bootstrap outcome as the response, and never forwards the literal content
as a chat message — when the lowercased name resolves, the only provider
call is that profile's firstMessage. -/
theorem C6_amended (env : ConfigEnv) (d : Daemon) (content : String)
    (createOk : Bool) (prov : Nat → ProviderOutcome)
    (tNew t1 t2 t3 u1 u2 u3 : Nat)
    (hd : d.current_state = none)
    (hmem : pyLower (pyStrip content) ∈ env.list_prompts.map pyLower) :
    route_send env d content createOk prov tNew t1 t2 t3 u1 u2 u3 =
      start_new_conversation env d (pyLower (pyStrip content)) createOk prov tNew t1 t2 t3
    ∧ ∀ pc : PromptProfile, env.load_prompt (pyLower (pyStrip content)) = some pc →
        createOk = true →
        ∀ r d1 sent, start_new_conversation env d (pyLower (pyStrip content)) createOk
          prov tNew t1 t2 t3 = some (r, d1, sent) →
          sent = [pc.first_message.getD ("")] := by
  constructor
  · simp [route_send, hd, hmem]
  · intro pc hpc hck r d1 sent hsnc
    subst hck
    cases hp : prov 0 <;>
      simp [start_new_conversation, hpc, hp] at hsnc <;>
      simp [hsnc]

/-- Witness for C6_amended: content " DEFAULT " matches the
all-lowercase stored name "default" of `envMixed`. -/
theorem C6_witness :
    route_send envMixed dEmpty (" DEFAULT ") true provOkR 5 6 7 8 9 10 11 =
      start_new_conversation envMixed dEmpty (pyLower (pyStrip (" DEFAULT "))) true
        provOkR 5 6 7 8
    ∧ ∀ pc : PromptProfile,
        envMixed.load_prompt (pyLower (pyStrip (" DEFAULT "))) = some pc →
        true = true →
        ∀ r d1 sent, start_new_conversation envMixed dEmpty
          (pyLower (pyStrip (" DEFAULT "))) true provOkR 5 6 7 8 = some (r, d1, sent) →
          sent = [pc.first_message.getD ("")] :=
  C6_amended envMixed dEmpty (" DEFAULT ") true provOkR 5 6 7 8 9 10 11 rfl
    (by decide)

/-! ### Claim C5 -/

theorem replayLoop_cons_user_ok (prov : Nat → ProviderOutcome) (msg : Message)
    (rest : List Message) (k : Nat) (reply : String)
    (hr : msg.role = Role.user) (hp : prov k = ProviderOutcome.ok reply) :
    replayLoop prov (msg :: rest) k =
      (msg.content :: (replayLoop prov rest (k + 1)).1,
        (replayLoop prov rest (k + 1)).2) := by
  simp [replayLoop, hr, hp]

theorem replayLoop_cons_other (prov : Nat → ProviderOutcome) (msg : Message)
    (rest : List Message) (k : Nat) (hr : ¬ msg.role = Role.user) :
    replayLoop prov (msg :: rest) k = replayLoop prov rest k := by
  simp [replayLoop, hr]

/-- When the replay loop reports success, it has sent exactly the
user-role contents of the stored messages, in stored order. -/
theorem replayLoop_success_sent (prov : Nat → ProviderOutcome) :
    ∀ (l : List Message) (k : Nat), (replayLoop prov l k).2 = true →
      (replayLoop prov l k).1 =
        (l.filter (fun msg => msg.role == Role.user)).map Message.content := by
  intro l
  induction l with
  | nil => intro k _; simp [replayLoop]
  | cons msg rest ih =>
    intro k h
    by_cases hr : msg.role = Role.user
    · cases hp : prov k with
      | ok reply =>
        rw [replayLoop_cons_user_ok prov msg rest k reply hr hp] at h ⊢
        simp only at h
        simp [hr, ih (k + 1) h]
      | rateLimited => simp [replayLoop, hr, hp] at h
      | serverError m => simp [replayLoop, hr, hp] at h
      | invalidArgument m => simp [replayLoop, hr, hp] at h
      | otherError m => simp [replayLoop, hr, hp] at h
    · rw [replayLoop_cons_other prov msg rest k hr] at h ⊢
      simp [hr, ih k h]

/-- Claim C5, confirmed.  For a resume with a non-expired persisted
record `st` (whose prompt resolves) and a resolving chat creation:
if every replay call succeeds, the resume returns `true`, replays exactly
the user-role messages of `st` in stored order (discarding replies,
appending nothing to the log), installs `st` itself — its log unchanged —
as current and leaves the persisted record in place; if any replay call
fails, the resume returns `false`, the daemon's current session stays
unset and the persisted record is not deleted. -/
theorem C5_confirmed (env : ConfigEnv) (d : Daemon) (st : ConversationState)
    (pc : PromptProfile) (prov : Nat → ProviderOutcome) (now : Nat)
    (hrec : d.store.current = some st)
    (hexp : st.is_expired env.timeout_hours now = false)
    (hpc : env.load_prompt st.prompt_name = some pc)
    (hempty : d.current_state = none) :
    (∀ sent, replayLoop prov st.messages 0 = (sent, true) →
      check_and_resume_conversation env d true prov now =
        some (true,
          { d with
            chat := some ⟨st.model, pc.temperature.getD (7 / 10 : Rat),
              pc.thinking_enabled.getD false⟩,
            current_state := some st, last_activity := now },
          sent)
      ∧ sent = (st.messages.filter (fun msg => msg.role == Role.user)).map
          Message.content)
    ∧ (∀ sent, replayLoop prov st.messages 0 = (sent, false) →
      check_and_resume_conversation env d true prov now =
        some (false,
          { d with
            chat := some ⟨st.model, pc.temperature.getD (7 / 10 : Rat),
              pc.thinking_enabled.getD false⟩ },
          sent)
      ∧ ({ d with
            chat := some ⟨st.model, pc.temperature.getD (7 / 10 : Rat),
              pc.thinking_enabled.getD false⟩ } : Daemon).current_state = none
      ∧ ({ d with
            chat := some ⟨st.model, pc.temperature.getD (7 / 10 : Rat),
              pc.thinking_enabled.getD false⟩ } : Daemon).store.current =
          some st) := by
  constructor
  · intro sent hrep
    constructor
    · simp [check_and_resume_conversation, hrec, hexp, hpc, hrep]
    · have h := replayLoop_success_sent prov st.messages 0
      rw [hrep] at h
      exact h rfl
  · intro sent hrep
    refine ⟨?_, hempty, hrec⟩
    simp [check_and_resume_conversation, hrec, hexp, hpc, hrep]

/-- A persisted four-message conversation for the C5 witness. -/
def stResume : ConversationState :=
  ⟨true, "default", "m", 0, 40,
    [⟨Role.user, "a", 1⟩, ⟨Role.model, "b", 2⟩,
     ⟨Role.user, "c", 3⟩, ⟨Role.model, "d", 4⟩]⟩

/-- A freshly started daemon whose store holds `stResume`. -/
def dWithRec : Daemon := ⟨none, none, 0, ⟨some stResume, []⟩⟩

/-- A provider answering "y" to everything, for the C5 witness. -/
def provOkAll : Nat → ProviderOutcome := fun _ => ProviderOutcome.ok ("y")

/-- Witness for C5_confirmed: the two user messages "a" and "c" are
replayed, in order, and the stored state becomes current unchanged. -/
theorem C5_witness :
    check_and_resume_conversation envFix dWithRec true provOkAll 50 =
      some (true,
        { dWithRec with
          chat := some ⟨stResume.model, dpFix.temperature.getD (7 / 10 : Rat),
            dpFix.thinking_enabled.getD false⟩,
          current_state := some stResume, last_activity := 50 },
        ["a", "c"])
    ∧ ["a", "c"] = (stResume.messages.filter
        (fun msg => msg.role == Role.user)).map Message.content :=
  (C5_confirmed envFix dWithRec stResume dpFix provOkAll 50 rfl (by decide)
    rfl rfl).1 (["a", "c"]) (by decide)

/-! ### Claim C9 -/

/-- Check that a message list is a sequence of consecutive
(user, model) pairs — equivalently, that its length is even and the roles
strictly alternate starting with a user message. -/
def pairedLog : List Message → Bool
  | [] => true
  | [_] => false
  | u :: m :: rest =>
    match u.role, m.role with
    | Role.user, Role.model => pairedLog rest
    | _, _ => false

theorem pairedLog_append_pair :
    ∀ (l : List Message) (a b : Message), a.role = Role.user →
      b.role = Role.model → pairedLog l = true → pairedLog (l ++ [a, b]) = true
  | [], a, b, ha, hb, _ => by simp [pairedLog, ha, hb]
  | [_], _, _, _, _, h => by simp [pairedLog] at h
  | u :: m :: rest, a, b, ha, hb, h => by
    cases hu : u.role <;> cases hm : m.role <;>
      simp [pairedLog, hu, hm] at h ⊢
    exact pairedLog_append_pair rest a b ha hb h

theorem pairedLog_even_length :
    ∀ l : List Message, pairedLog l = true → l.length % 2 = 0
  | [], _ => rfl
  | [_], h => by simp [pairedLog] at h
  | u :: m :: rest, h => by
    cases hu : u.role <;> cases hm : m.role <;> simp [pairedLog, hu, hm] at h
    have hr := pairedLog_even_length rest h
    simp only [List.length_cons]
    omega

/-- The current-session states producible by the Session Manager's two
mutating operations.  `started` is `start_new_conversation` invoked with
no current session (the only way the daemon invokes it: from the send
routing or after a reset), whatever its outcome; `stepped` is
`send_message` on a current reachable session.  In both cases the state
read off is whatever the operation left in `current_state`. -/
inductive ReachableState : ConversationState → Prop
  | started (env : ConfigEnv) (d : Daemon) (pn : String) (createOk : Bool)
      (prov : Nat → ProviderOutcome) (tNew t1 t2 t3 : Nat) (r : String)
      (d1 : Daemon) (sent : List String) (st : ConversationState) :
      d.current_state = none →
      start_new_conversation env d pn createOk prov tNew t1 t2 t3 =
        some (r, d1, sent) →
      d1.current_state = some st → ReachableState st
  | stepped (env : ConfigEnv) (d : Daemon) (prov : Nat → ProviderOutcome)
      (content : String) (t1 t2 t3 : Nat) (st st1 : ConversationState) :
      ReachableState st → d.current_state = some st →
      (send_message env d prov content t1 t2 t3).daemon.current_state =
        some st1 →
      ReachableState st1

/-- Claim C9, confirmed: every current SessionState reachable through
`start_new_conversation` and `send_message` has a message log appended to
only in (user, model) pairs: the log passes `pairedLog` — roles strictly
alternate starting with a user message — and its length is even.  No
operation ever appends a lone user or lone model message. -/
theorem C9_confirmed (st : ConversationState) (h : ReachableState st) :
    pairedLog st.messages = true ∧ st.messages.length % 2 = 0 := by
  have hp : pairedLog st.messages = true := by
    induction h with
    | started env d pn createOk prov tNew t1 t2 t3 r d1 sent st hd hsnc hcur =>
      rcases hres : env.load_prompt pn with - | pc
      · rcases hdef : env.load_prompt ("default") with - | pc
        · simp [start_new_conversation, hres, hdef] at hsnc
        · cases createOk
          · simp [start_new_conversation, hres, hdef] at hsnc
            rw [← hsnc.2.1, hd] at hcur
            exact absurd hcur (by simp)
          · cases hp0 : prov 0 <;>
              simp [start_new_conversation, hres, hdef, hp0] at hsnc <;>
              rw [← hsnc.2.1] at hcur <;>
              simp only [Option.some.injEq] at hcur <;>
              rw [← hcur] <;>
              simp [create_new, ConversationState.add_message, pairedLog]
      · cases createOk
        · simp [start_new_conversation, hres] at hsnc
          rw [← hsnc.2.1, hd] at hcur
          exact absurd hcur (by simp)
        · cases hp0 : prov 0 <;>
            simp [start_new_conversation, hres, hp0] at hsnc <;>
            rw [← hsnc.2.1] at hcur <;>
            simp only [Option.some.injEq] at hcur <;>
            rw [← hcur] <;>
            simp [create_new, ConversationState.add_message, pairedLog]
    | stepped env d prov content t1 t2 t3 st st1 hre hcur hsend ih =>
      rcases hchat : d.chat with - | ch
      · rw [show send_message env d prov content t1 t2 t3 =
          ⟨"Error: No active conversation", d, [], []⟩ from by
            simp [send_message, hchat]] at hsend
        simp only at hsend
        rw [hcur] at hsend
        simp only [Option.some.injEq] at hsend
        rw [← hsend]
        exact ih
      · rcases hsl : sendLoop prov env.max_retries env.retry_delay_seconds 0
          env.max_retries with ⟨o, sleeps, calls⟩
        cases o with
        | success reply =>
          simp [send_message, hchat, hcur, hsl] at hsend
          rw [← hsend]
          simp only [ConversationState.add_message, List.append_assoc,
            List.cons_append, List.nil_append]
          exact pairedLog_append_pair st.messages ⟨Role.user, content, t1⟩
            ⟨Role.model, reply, t2⟩ rfl rfl ih
        | failure text =>
          simp [send_message, hchat, hcur, hsl] at hsend
          rw [← hsend]
          exact ih
  exact ⟨hp, pairedLog_even_length st.messages hp⟩

/-- The session created by a successful bootstrap against `envFix`. -/
def stBoot : ConversationState :=
  ((create_new ("default") ("m") 5).add_message Role.user ("hello")
    6).add_message Role.model ("R") 7

/-- Witness for C9_confirmed: the state left by a concrete successful
`start_new_conversation` run is reachable and its log is one
(user, model) pair. -/
theorem C9_witness :
    pairedLog stBoot.messages = true ∧ stBoot.messages.length % 2 = 0 :=
  C9_confirmed stBoot
    (ReachableState.started envFix dEmpty ("default") true provOkR 5 6 7 8
      ("R")
      { dEmpty with
        chat := some ⟨"m", 7 / 10, false⟩, current_state := some stBoot,
        store := save_current dEmpty.store stBoot, last_activity := 8 }
      ["hello"] stBoot rfl rfl rfl)

end ClipboardAI
